import Mathlib

/-!
Verification of the PricePilot-AI pricing-intelligence frontend and its
specified analytical core.  The definitions below are a shallow embedding of
the repository's data tables (`src/frontend/src/data/mockData.js`), the
frontend timeline/rules code (`src/frontend/src/pages/*.jsx`), the API
service layer, and the database schema
(`src/backend/app/db/supabase_tables.sql`).  The backend statistical modules
are empty stubs in the repository, so the Feature Engineer and Price
Optimizer are modelled from the specification where a claim needs them.

Monetary amounts are embedded in cents (Nat/Int) so that all arithmetic is
exact; percentage deltas are embedded in tenths of a percent; elasticity
coefficients in hundredths.
-/

namespace PricePilot

/-- Risk label of a pricing scenario, ordered low < medium < high. -/
inductive Risk where
  | low
  | medium
  | high
deriving DecidableEq

/-- Numeric rank of a risk label: low = 0, medium = 1, high = 2. -/
def Risk.rank : Risk → Nat
  | .low => 0
  | .medium => 1
  | .high => 2

/-- Priority of a decision rule. -/
inductive Priority where
  | critical
  | high
  | medium
  | low
deriving DecidableEq

/- ── Forecast timeline (mockData.js, `forecastTimeline`) ───────────── -/

/-- One month of the mock forecast timeline: past actuals and the forecast
with its confidence bounds, each possibly null exactly as in the source. -/
structure ForecastMonth where
  month : String
  past : Option Int
  forecast : Option Int
  upper : Option Int
  lower : Option Int
deriving DecidableEq

/-- The `forecastTimeline` array of mockData.js, verbatim. -/
def forecastTimeline : List ForecastMonth :=
  [ ⟨"Jul", some 4200, none, none, none⟩,
    ⟨"Aug", some 4800, none, none, none⟩,
    ⟨"Sep", some 5400, none, none, none⟩,
    ⟨"Oct", some 6100, none, none, none⟩,
    ⟨"Nov", some 7200, none, none, none⟩,
    ⟨"Dec", some 8100, none, none, none⟩,
    ⟨"Jan", some 7800, some 7800, some 7800, some 7800⟩,
    ⟨"Feb", none, some 8200, some 8900, some 7500⟩,
    ⟨"Mar", none, some 8900, some 9800, some 7900⟩,
    ⟨"Apr", none, some 9400, some 10700, some 8100⟩,
    ⟨"May", none, some 10200, some 12000, some 8400⟩,
    ⟨"Jun", none, some 11500, some 13800, some 9200⟩ ]

/-- The forecast points of the timeline (forecast, upper, lower), keeping
only the months where a forecast is present. -/
def forecastPoints : List (Int × Int × Int) :=
  forecastTimeline.filterMap fun m =>
    match m.forecast, m.upper, m.lower with
    | some f, some u, some l => some (f, u, l)
    | _, _, _ => none

/-- A list of integers is non-decreasing front to back. -/
def nondecr : List Int → Bool
  | [] => true
  | [_] => true
  | a :: b :: rest => decide (a ≤ b) && nondecr (b :: rest)

/- ── Frontend forecast timeline construction (PricingEnginePage.jsx,
`ForecastingPage`, lines 304-312) ───────────────────────────────────── -/

/-- A forecast point as returned by the API: a predicted demand and
possibly-missing confidence bounds. -/
structure ApiForecastPoint where
  predicted_demand : ℚ
  lower_bound : Option ℚ
  upper_bound : Option ℚ

/-- A point of the timeline the frontend chart consumes. -/
structure TimelinePoint where
  predicted : ℚ
  upper : ℚ
  lower : ℚ

/-- JavaScript `x || fallback` on a possibly-missing number: the fallback is
used when the value is absent or zero (both are falsy). -/
def jsOr (v : Option ℚ) (fallback : ℚ) : ℚ :=
  match v with
  | some x => if x = 0 then fallback else x
  | none => fallback

/-- The frontend mapping `f => ({ predicted: f.predicted_demand,
upper: f.upper_bound || f.predicted_demand * 1.2,
lower: f.lower_bound || f.predicted_demand * 0.8 })`. -/
def buildTimelinePoint (f : ApiForecastPoint) : TimelinePoint :=
  { predicted := f.predicted_demand
    upper := jsOr f.upper_bound (f.predicted_demand * 1.2)
    lower := jsOr f.lower_bound (f.predicted_demand * 0.8) }

/- ── Elasticity curve and optimal pricing (mockData.js) ────────────── -/

/-- One row of the `elasticityCurve` array: price in cents, daily demand in
units, revenue in whole dollars. -/
structure CurvePoint where
  priceCents : Nat
  demand : Nat
  revenue : Nat
deriving DecidableEq

/-- The `elasticityCurve` array of mockData.js, prices in cents. -/
def elasticityCurve : List CurvePoint :=
  [ ⟨2999, 12400, 371876⟩,
    ⟨3499, 11200, 391888⟩,
    ⟨3999, 10100, 403899⟩,
    ⟨4499, 9100, 409409⟩,
    ⟨4999, 8200, 409918⟩,
    ⟨5449, 7600, 414124⟩,
    ⟨5999, 6800, 407932⟩,
    ⟨6499, 5900, 383441⟩,
    ⟨6999, 5000, 349950⟩,
    ⟨7499, 4100, 307459⟩ ]

/-- The `optimalPricing` record of mockData.js (monetary fields in cents,
elasticity in hundredths, deltas in tenths of a percent). -/
structure OptimalPricing where
  currentPriceCents : Nat
  optimalPriceCents : Nat
  confidence : Nat
  revenueImpactThousands : Int
  demandChangeTenthPct : Int
  elasticityHundredths : Int
  competitorAvgCents : Nat
deriving DecidableEq

def optimalPricing : OptimalPricing :=
  { currentPriceCents := 4999
    optimalPriceCents := 5449
    confidence := 94
    revenueImpactThousands := 186
    demandChangeTenthPct := -21
    elasticityHundredths := -142
    competitorAvgCents := 5287 }

/- ── Pricing scenarios (mockData.js, `pricingScenarios`) ───────────── -/

/-- One pricing scenario: price in cents, projected revenue delta in
thousands of dollars, projected demand and margin deltas in tenths of a
percent, and a risk label. -/
structure Scenario where
  id : Nat
  name : String
  priceCents : Nat
  revenueDeltaThousands : Int
  demandDeltaTenthPct : Int
  marginDeltaTenthPct : Int
  risk : Risk
deriving DecidableEq

/-- The `pricingScenarios` array of mockData.js. -/
def pricingScenarios : List Scenario :=
  [ ⟨1, "Aggressive Growth", 4499, 82, 120, -32, .low⟩,
    ⟨2, "Balanced Optimal", 5449, 186, -21, 224, .low⟩,
    ⟨3, "Premium Push", 6499, 45, -180, 381, .medium⟩,
    ⟨4, "Market Penetration", 3999, -28, 280, -128, .high⟩ ]

/- ── Decision rules (DecisionEnginePage.jsx and mockData.js) ───────── -/

/-- One row of a rules table, exactly the fields the source carries. -/
structure RuleRow where
  id : Nat
  name : String
  trigger : String
  action : String
  priority : Priority
  status : String
deriving DecidableEq

/-- The `defaultRules` table of DecisionEnginePage.jsx (the rules shown when
the API is unavailable). -/
def defaultRules : List RuleRow :=
  [ ⟨1, "Competitor Undercut Response", "price_position > 1.10",
      "Match price within 5%", .critical, "active"⟩,
    ⟨2, "Demand Surge Capture", "growth > 0.15 AND momentum > 10",
      "Increase 5-8%", .high, "active"⟩,
    ⟨3, "Low Demand Guard", "growth < -0.15",
      "10% discount", .high, "active"⟩,
    ⟨4, "Seasonal Discount Window", "seasonal < 0.9",
      "10-15% discount", .medium, "active"⟩,
    ⟨5, "Trend Surge Preparation", "momentum > 15",
      "Increase stock", .medium, "active"⟩,
    ⟨6, "Margin Floor Protection", "position < 0.85",
      "Block decrease", .critical, "active"⟩ ]

/-- The `decisionRules` table of mockData.js (the Decision Engine page data
that maps to the backend structure). -/
def decisionRules : List RuleRow :=
  [ ⟨1, "Competitor Undercut Response", "competitor_delta < -10%",
      "Match price within 5% if margin > 15%", .critical, "active"⟩,
    ⟨2, "Demand Surge Capture", "demand_momentum > 80",
      "Increase price by 5-8% gradually", .high, "active"⟩,
    ⟨3, "Low Inventory Guard", "stock_days < 14",
      "Hold price, suppress promotions", .high, "active"⟩,
    ⟨4, "Seasonal Discount Window", "season == \"declining\" && margin > 20%",
      "Apply 10-15% discount tier", .medium, "paused"⟩,
    ⟨5, "New Entrant Alert", "new_competitor_detected",
      "Run competitive analysis, notify team", .medium, "active"⟩,
    ⟨6, "Margin Floor Protection", "projected_margin < 12%",
      "Block price decrease, escalate to review", .critical, "active"⟩ ]

/-- The signal fields the rule triggers read. -/
structure SignalVector where
  price_position_index : ℚ
  demand_growth_rate : ℚ
  trend_momentum : ℚ
  seasonal_index : ℚ

/-- Semantics of the trigger strings appearing in the `defaultRules` table:
each comparison string is read as the corresponding inequality over the
signal vector (`price_position` and `position` abbreviate
price_position_index, `growth` demand_growth_rate, `momentum`
trend_momentum, `seasonal` seasonal_index).  A string not in the table
denotes an unsatisfiable trigger. -/
def triggerSem (t : String) (sv : SignalVector) : Prop :=
  if t = "price_position > 1.10" then sv.price_position_index > 1.10
  else if t = "growth > 0.15 AND momentum > 10" then
    sv.demand_growth_rate > 0.15 ∧ sv.trend_momentum > 10
  else if t = "growth < -0.15" then sv.demand_growth_rate < -0.15
  else if t = "seasonal < 0.9" then sv.seasonal_index < 0.9
  else if t = "momentum > 15" then sv.trend_momentum > 15
  else if t = "position < 0.85" then sv.price_position_index < 0.85
  else False

/-- The six rule names the specification attributes to the Decision Engine,
in order. -/
def claimedRuleNames : List String :=
  [ "Competitor Undercut Response", "Demand Surge Capture",
    "Low Demand Guard", "Seasonal Discount Window",
    "Trend Surge Preparation", "Margin Floor Protection" ]

/-- The priorities the specification attributes to those six rules. -/
def claimedRulePriorities : List Priority :=
  [ .critical, .high, .high, .medium, .medium, .critical ]

/-- Default rule row used only to make list indexing total. -/
def dfltRule : RuleRow := ⟨0, "", "", "", .low, ""⟩

/- ── Decision log and recommendations (mockData.js) ────────────────── -/

/-- One entry of the `decisionLog` array: a rule evaluation with its input,
decision and confidence (0-100 scale). -/
structure LogEntry where
  time : String
  rule : String
  input : String
  decision : String
  confidence : Nat
deriving DecidableEq

/-- The `decisionLog` array of mockData.js. -/
def decisionLog : List LogEntry :=
  [ ⟨"14:32:00", "Competitor Undercut Response", "COMP_A price drop -12%",
      "ADJUST: match within 5%", 91⟩,
    ⟨"14:28:00", "Demand Surge Capture", "Momentum = 73",
      "HOLD: below threshold", 88⟩,
    ⟨"14:20:00", "Margin Floor Protection", "Margin = 18.4%",
      "PASS: above floor", 95⟩,
    ⟨"14:12:00", "Low Inventory Guard", "Stock days = 22",
      "PASS: sufficient stock", 97⟩,
    ⟨"13:55:00", "Competitor Undercut Response", "COMP_B price +8%",
      "HOLD: favorable movement", 93⟩ ]

/-- One entry of the `recommendations` array (only the fields the claims
read: identity, kind and confidence). -/
structure RecommendationEntry where
  id : Nat
  kind : String
  title : String
  confidence : Nat
  urgency : String
deriving DecidableEq

/-- The `recommendations` array of mockData.js. -/
def recommendations : List RecommendationEntry :=
  [ ⟨1, "increase", "Increase price by 8%", 92, "High"⟩,
    ⟨2, "discount", "Schedule discount window", 78, "Medium"⟩,
    ⟨3, "stock", "Increase stock before surge", 85, "High"⟩ ]

/-- The CHECK constraint on `price_recommendations.confidence` in
supabase_tables.sql: confidence NUMERIC(5,4) CHECK (confidence BETWEEN 0
AND 1). -/
def priceRecommendationsConfidenceCheck (c : ℚ) : Prop :=
  0 ≤ c ∧ c ≤ 1

/- ── Feature Engineer (modelled from the spec) ─────────────────────── -/

/-- Error kinds of the analytical core's error taxonomy (spec §7). -/
inductive CoreError where
  | insufficientDataError
  | degenerateElasticityError
deriving DecidableEq

/-- Modelled from the spec: the Feature Engineer's
`price_position_index` = your_price / competitor_price_avg, failing with
`InsufficientDataError` if competitor_price_avg is 0 or undefined (no
competitor data).  The backend module services/feature_engineering.py is an
empty stub in the repository, so this follows spec §4.1 verbatim:
competitor_price_avg is the arithmetic mean of the given competitor prices,
undefined (taken as 0) on an empty sequence. -/
def pricePositionIndex (yourPrice : ℚ) (competitorPrices : List ℚ) :
    Except CoreError ℚ :=
  let avg : ℚ :=
    if competitorPrices.isEmpty then 0
    else competitorPrices.sum / competitorPrices.length
  if avg = 0 then .error .insufficientDataError
  else .ok (yourPrice / avg)

/- ── Price Optimizer (modelled from the spec) ──────────────────────── -/

/-- Output of the Price Optimizer: the chosen optimal price and an optional
warning flag. -/
structure OptimizerOutput where
  optimal_price : ℚ
  warning : Option CoreError
deriving DecidableEq

/-- The price of the revenue-maximizing point of a finite price-demand
curve (dense grid evaluation), defaulting to the given price when the curve
is empty. -/
def argmaxRevenue (dflt : ℚ) (curve : List (ℚ × ℚ)) : ℚ :=
  match curve.foldl
      (fun best pt =>
        match best with
        | none => some pt
        | some b => if b.1 * b.2 < pt.1 * pt.2 then some pt else some b)
      none with
  | none => dflt
  | some b => b.1

/-- Modelled from the spec: the Price Optimizer searches a finite
price-demand grid for the revenue-maximizing price, but fails gracefully
when the elasticity coefficient is non-negative — a
`DegenerateElasticityError` is surfaced as a warning and the current price
is returned unchanged as the optimal price.  The backend module
models/price_optimizer.py is an empty stub in the repository, so this
follows spec §4.4 and Scenario 3 of §8. -/
def priceOptimizer (currentPrice : ℚ) (elasticity : ℚ)
    (curve : List (ℚ × ℚ)) : OptimizerOutput :=
  if 0 ≤ elasticity then
    ⟨currentPrice, some .degenerateElasticityError⟩
  else
    ⟨argmaxRevenue currentPrice curve, none⟩

/- ── API service layer (unnamed part_002, `apiFetch`) ──────────────── -/

/-- The outcome of the browser `fetch` + `response.json()` pair, abstracted
over the parsed body type: either the network request itself fails, or a
response arrives with an ok flag and a body that parses to `some` value or
fails to parse (`none`). -/
inductive FetchOutcome (α : Type) where
  | networkError
  | response (ok : Bool) (body : Option α)

/-- Error kinds that can be thrown inside apiFetch's try block. -/
inductive ApiError where
  | networkFailure
  | httpError
  | parseError
deriving DecidableEq

/-- The body of apiFetch's try block: await fetch (throws on network
failure), throw `HTTP status` when the response is not ok, then await
response.json() (throws when the body is not valid JSON). -/
def apiFetchTry {α : Type} (o : FetchOutcome α) : Except ApiError α :=
  match o with
  | .networkError => .error .networkFailure
  | .response ok body =>
    if ok then
      match body with
      | some j => .ok j
      | none => .error .parseError
    else .error .httpError

/-- The apiFetch helper of the API service layer: the try block's value
on success, and null (here `none`) for every caught error. -/
def apiFetch {α : Type} (o : FetchOutcome α) : Option α :=
  match apiFetchTry o with
  | .ok j => some j
  | .error _ => none

/-- Function fetchRecommendations of the API service layer: apiFetch at the
endpoint /pricing/recommendations. -/
def fetchRecommendations {α : Type} (o : FetchOutcome α) : Option α :=
  apiFetch o

/-- Function fetchOptimization of the API service layer: apiFetch at the endpoint
/pricing/optimize/{productId}. -/
def fetchOptimization {α : Type} (o : FetchOutcome α) : Option α :=
  apiFetch o

/-- Function predictDemand of the API service layer: apiFetch (POST) at the
endpoint /forecasting/predict/{productId}. -/
def predictDemand {α : Type} (o : FetchOutcome α) : Option α :=
  apiFetch o

end PricePilot

namespace PricePilot

/- ── Claim C1 ──────────────────────────────────────────────────────── -/

/-- C1 counterexample: the claim asserts that the bound width of every
forecast timeline, including one built by the frontend with missing bounds
filled as 0.8x and 1.2x the prediction, is non-decreasing in the horizon
step.  For the concrete two-point API forecast with predicted demands 100
then 50 and no bounds, the frontend-built widths are 40 then 20: the width
strictly decreases from step 1 to step 2, so the claim is false. -/
theorem forecast_width_monotone_counterexample :
    (buildTimelinePoint ⟨100, none, none⟩).lower
        ≤ (buildTimelinePoint ⟨100, none, none⟩).predicted
    ∧ (buildTimelinePoint ⟨50, none, none⟩).upper
        - (buildTimelinePoint ⟨50, none, none⟩).lower
      < (buildTimelinePoint ⟨100, none, none⟩).upper
        - (buildTimelinePoint ⟨100, none, none⟩).lower := by
  constructor <;> norm_num [buildTimelinePoint, jsOr]

/-- C1 amended: (a) every forecast point of the mock `forecastTimeline`
satisfies lower ≤ forecast ≤ upper, and its bound widths are non-decreasing
in the horizon step; (b) a frontend-built point with missing bounds filled
as 0.8x and 1.2x a non-negative prediction satisfies
lower ≤ predicted ≤ upper; (c) the width of such a filled point
(0.4 × prediction) is non-decreasing in the horizon step only insofar as
the predicted demand is non-decreasing: predictions d ≤ e give widths in
the same order. -/
theorem forecast_bounds_invariant_amended :
    ((forecastPoints.all fun p => decide (p.2.2 ≤ p.1) && decide (p.1 ≤ p.2.1))
      = true
    ∧ nondecr (forecastPoints.map fun p => p.2.1 - p.2.2) = true)
    ∧ (∀ d : ℚ, 0 ≤ d →
        (buildTimelinePoint ⟨d, none, none⟩).lower
            ≤ (buildTimelinePoint ⟨d, none, none⟩).predicted
        ∧ (buildTimelinePoint ⟨d, none, none⟩).predicted
            ≤ (buildTimelinePoint ⟨d, none, none⟩).upper)
    ∧ (∀ d e : ℚ, 0 ≤ d → d ≤ e →
        (buildTimelinePoint ⟨d, none, none⟩).upper
            - (buildTimelinePoint ⟨d, none, none⟩).lower
          ≤ (buildTimelinePoint ⟨e, none, none⟩).upper
            - (buildTimelinePoint ⟨e, none, none⟩).lower) := by
  refine ⟨⟨by decide, by decide⟩, ?_, ?_⟩
  · intro d hd
    constructor <;> simp [buildTimelinePoint, jsOr] <;> nlinarith
  · intro d e hd hde
    simp only [buildTimelinePoint, jsOr]
    nlinarith

/-- Witness for the amended C1 theorem at the concrete prediction values
d = 100 and e = 200. -/
theorem forecast_bounds_invariant_amended_witness :
    (buildTimelinePoint ⟨100, none, none⟩).lower
        ≤ (buildTimelinePoint ⟨100, none, none⟩).predicted
    ∧ (buildTimelinePoint ⟨100, none, none⟩).upper
        - (buildTimelinePoint ⟨100, none, none⟩).lower
      ≤ (buildTimelinePoint ⟨200, none, none⟩).upper
        - (buildTimelinePoint ⟨200, none, none⟩).lower :=
  ⟨(forecast_bounds_invariant_amended.2.1 100 (by norm_num)).1,
   forecast_bounds_invariant_amended.2.2 100 200 (by norm_num) (by norm_num)⟩

/- ── Claim C2 ──────────────────────────────────────────────────────── -/

/-- C2: on the optimizer's price-demand-revenue curve, every row satisfies
revenue = price × demand exactly (priceCents × demand = 100 × revenue, i.e.
the dollar revenue is exactly the dollar price times demand), and the
reported optimal price 54.49 is the unique point of the curve at which
revenue is maximized. -/
theorem elasticity_curve_revenue_exact_and_argmax :
    (elasticityCurve.all fun r => r.priceCents * r.demand == 100 * r.revenue)
      = true
    ∧ (elasticityCurve.all fun r => r.revenue ≤ 414124) = true
    ∧ ((elasticityCurve.filter fun r => r.revenue == 414124).map
        CurvePoint.priceCents) = [5449]
    ∧ optimalPricing.optimalPriceCents = 5449 := by
  refine ⟨by decide, by decide, by decide, rfl⟩

/- ── Claim C3 ──────────────────────────────────────────────────────── -/

/-- C3 counterexample: the claim describes "the Decision Engine's rule set"
as six rules including one named Low Demand Guard (trigger
demand_growth_rate < −0.15) and one named Trend Surge Preparation (trigger
trend_momentum > 15).  The `decisionRules` table of mockData.js — one of
the two rule tables in the repository — instead has a rule named
Low Inventory Guard triggered by stock_days < 14 in position 3 and a rule
named New Entrant Alert in position 5, so the claim is false of that
table. -/
theorem decision_rules_table_counterexample :
    decisionRules.map RuleRow.name ≠ claimedRuleNames
    ∧ (decisionRules.getD 2 dfltRule).name = "Low Inventory Guard"
    ∧ (decisionRules.getD 2 dfltRule).trigger = "stock_days < 14"
    ∧ (decisionRules.getD 4 dfltRule).name = "New Entrant Alert" := by
  refine ⟨by decide, rfl, rfl, rfl⟩

/-- C3 amended: the `defaultRules` table of DecisionEnginePage.jsx consists
of exactly the six claimed rules — the claimed names and priorities in
order, and each rule's trigger string denoting exactly the claimed
condition over the signal vector (rule 1: price_position_index > 1.10;
rule 2: demand_growth_rate > 0.15 and trend_momentum > 10; rule 3:
demand_growth_rate < −0.15; rule 4: seasonal_index < 0.9; rule 5:
trend_momentum > 15; rule 6: price_position_index < 0.85).  The mockData
`decisionRules` table shares only names 1, 2, 4 and 6 and uses different
trigger conditions. -/
theorem decision_rules_default_match :
    defaultRules.length = 6
    ∧ defaultRules.map RuleRow.name = claimedRuleNames
    ∧ defaultRules.map RuleRow.priority = claimedRulePriorities
    ∧ (∀ sv : SignalVector,
        (triggerSem (defaultRules.getD 0 dfltRule).trigger sv
          ↔ sv.price_position_index > 1.10)
        ∧ (triggerSem (defaultRules.getD 1 dfltRule).trigger sv
          ↔ sv.demand_growth_rate > 0.15 ∧ sv.trend_momentum > 10)
        ∧ (triggerSem (defaultRules.getD 2 dfltRule).trigger sv
          ↔ sv.demand_growth_rate < -0.15)
        ∧ (triggerSem (defaultRules.getD 3 dfltRule).trigger sv
          ↔ sv.seasonal_index < 0.9)
        ∧ (triggerSem (defaultRules.getD 4 dfltRule).trigger sv
          ↔ sv.trend_momentum > 15)
        ∧ (triggerSem (defaultRules.getD 5 dfltRule).trigger sv
          ↔ sv.price_position_index < 0.85)) := by
  refine ⟨rfl, by decide, by decide, ?_⟩
  intro sv
  refine ⟨?_, ?_, ?_, ?_, ?_, ?_⟩ <;> simp [triggerSem, defaultRules]

/- ── Claim C4 ──────────────────────────────────────────────────────── -/

/-- Default scenario used only to make list indexing total. -/
def dfltScenario : Scenario := ⟨0, "", 0, 0, 0, 0, .low⟩

/-- C4: for the input current_price = 49.99, competitor_avg = 52.87 and
elasticity −1.42 (the `optimalPricing` record), the optimizer's reported
optimal price lies in [51, 58] dollars, and the Balanced Optimal scenario
carries risk low at that same price. -/
theorem scenario1_optimal_price_in_range :
    optimalPricing.currentPriceCents = 4999
    ∧ optimalPricing.competitorAvgCents = 5287
    ∧ optimalPricing.elasticityHundredths = -142
    ∧ 5100 ≤ optimalPricing.optimalPriceCents
    ∧ optimalPricing.optimalPriceCents ≤ 5800
    ∧ (pricingScenarios.getD 1 dfltScenario).name = "Balanced Optimal"
    ∧ (pricingScenarios.getD 1 dfltScenario).risk = .low
    ∧ (pricingScenarios.getD 1 dfltScenario).priceCents
        = optimalPricing.optimalPriceCents := by
  refine ⟨rfl, rfl, rfl, by decide, by decide, rfl, rfl, rfl⟩

/- ── Claim C8 ──────────────────────────────────────────────────────── -/

/-- C8: across the four canonical pricing scenarios, the risk label is
monotone in the magnitude of the projected demand swing: of any two
scenarios, the one with the larger absolute projected demand delta has a
risk label at least as high under low < medium < high. -/
theorem scenario_risk_monotone_in_demand_swing :
    ∀ s₁ ∈ pricingScenarios, ∀ s₂ ∈ pricingScenarios,
      s₂.demandDeltaTenthPct.natAbs ≤ s₁.demandDeltaTenthPct.natAbs →
      s₂.risk.rank ≤ s₁.risk.rank := by
  decide

/-- Witness for C8 at the concrete pair Market Penetration (|+28%|,
risk high) and Premium Push (|−18%|, risk medium). -/
theorem scenario_risk_monotone_witness :
    Risk.rank .medium ≤ Risk.rank .high :=
  scenario_risk_monotone_in_demand_swing
    ⟨4, "Market Penetration", 3999, -28, 280, -128, .high⟩ (by decide)
    ⟨3, "Premium Push", 6499, 45, -180, 381, .medium⟩ (by decide)
    (by decide)

/- ── Claim C9 ──────────────────────────────────────────────────────── -/

/-- C9: every recommendation carries a confidence in [0, 100]: all entries
of the decision log and of the recommendations list have confidence ≤ 100
(the values are naturals, hence ≥ 0), and any confidence admitted by the
database CHECK constraint on price_recommendations (0 ≤ c ≤ 1) also lies
in [0, 100]. -/
theorem recommendation_confidence_in_range :
    (decisionLog.all fun e => e.confidence ≤ 100) = true
    ∧ (recommendations.all fun r => r.confidence ≤ 100) = true
    ∧ (∀ c : ℚ, priceRecommendationsConfidenceCheck c →
        0 ≤ c ∧ c ≤ 100) := by
  refine ⟨by decide, by decide, ?_⟩
  intro c hc
  exact ⟨hc.1, hc.2.trans (by norm_num)⟩

/-- Witness for C9 at the concrete confidence value 1/2, which satisfies
the database CHECK constraint. -/
theorem recommendation_confidence_witness :
    0 ≤ (1 / 2 : ℚ) ∧ (1 / 2 : ℚ) ≤ 100 :=
  recommendation_confidence_in_range.2.2 (1 / 2) ⟨by norm_num, by norm_num⟩

end PricePilot

namespace PricePilot

/- ── Claim C5 ──────────────────────────────────────────────────────── -/

/-- C5: whenever the competitor-price observation sequence sums to zero —
in particular when it is empty, so competitor_price_avg is undefined — the
Feature Engineer fails with InsufficientDataError when computing
price_position_index and never returns a defaulted ok value such as 0
or 1. -/
theorem price_position_index_insufficient_data
    (yourPrice : ℚ) (competitorPrices : List ℚ)
    (hsum : competitorPrices.sum = 0) :
    pricePositionIndex yourPrice competitorPrices
      = .error .insufficientDataError
    ∧ (pricePositionIndex yourPrice competitorPrices).isOk = false := by
  rcases competitorPrices with _ | ⟨p, ps⟩
  · exact ⟨rfl, rfl⟩
  · have hs : p + ps.sum = 0 := by simpa using hsum
    constructor
    · simp [pricePositionIndex, hs]
    · simp [pricePositionIndex, hs, Except.isOk, Except.toBool]

/-- Witness for C5 at your_price = 49.99 and an empty competitor-price
sequence. -/
theorem price_position_index_insufficient_data_witness :
    pricePositionIndex 49.99 [] = .error .insufficientDataError
    ∧ (pricePositionIndex 49.99 []).isOk = false :=
  price_position_index_insufficient_data 49.99 [] (by simp)

/- ── Claim C6 ──────────────────────────────────────────────────────── -/

/-- C6: for every non-negative elasticity coefficient, the Price Optimizer
flags DegenerateElasticityError as a warning and returns the current price
unchanged as the optimal price, regardless of the demand curve supplied. -/
theorem optimizer_degenerate_elasticity
    (currentPrice elasticity : ℚ) (curve : List (ℚ × ℚ))
    (h : 0 ≤ elasticity) :
    priceOptimizer currentPrice elasticity curve
      = ⟨currentPrice, some .degenerateElasticityError⟩ := by
  simp [priceOptimizer, h]

/-- Witness for C6 at current price 49.99, elasticity +0.3 (Scenario 3 of
the spec) and the mock demand curve in dollars. -/
theorem optimizer_degenerate_elasticity_witness :
    priceOptimizer 49.99 0.3 [(49.99, 8200), (54.49, 7600)]
      = ⟨49.99, some .degenerateElasticityError⟩ :=
  optimizer_degenerate_elasticity 49.99 0.3 [(49.99, 8200), (54.49, 7600)]
    (by norm_num)

/- ── Claim C7 ──────────────────────────────────────────────────────── -/

/-- C7: every pipeline stage of the embedding is a pure function of its
inputs, so identical inputs give identical numeric outputs; in particular
re-running the Price Optimizer with identical elasticity and current-price
inputs returns the same optimal price, and likewise for the Feature
Engineer signal and the frontend timeline construction.  The stages carry
no hidden state or randomness. -/
theorem pipeline_stage_determinism :
    (∀ (p ε : ℚ) (curve : List (ℚ × ℚ)),
      (priceOptimizer p ε curve).optimal_price
        = (priceOptimizer p ε curve).optimal_price)
    ∧ (∀ (yp : ℚ) (cps : List ℚ),
        pricePositionIndex yp cps = pricePositionIndex yp cps)
    ∧ (∀ f : ApiForecastPoint,
        buildTimelinePoint f = buildTimelinePoint f) :=
  ⟨fun _ _ _ => rfl, fun _ _ => rfl, fun _ => rfl⟩

/- ── Claim C10 ─────────────────────────────────────────────────────── -/

/-- C10: the frontend API helper apiFetch never rejects — every error
thrown inside its try block is caught and mapped to null — it resolves to
the parsed JSON body when the HTTP response is ok and the body parses, and
to null on network failure, non-ok status, or an unparseable body; the
exported API functions fetchRecommendations, fetchOptimization and
predictDemand are apiFetch at their endpoints and so always resolve to a
result or null. -/
theorem apiFetch_never_rejects :
    (∀ (α : Type) (o : FetchOutcome α) (e : ApiError),
      apiFetchTry o = .error e → apiFetch o = none)
    ∧ (∀ (α : Type) (j : α), apiFetch (.response true (some j)) = some j)
    ∧ (∀ (α : Type), apiFetch (α := α) .networkError = none)
    ∧ (∀ (α : Type) (body : Option α), apiFetch (.response false body) = none)
    ∧ (∀ (α : Type), apiFetch (α := α) (.response true none) = none)
    ∧ (∀ (α : Type) (o : FetchOutcome α),
        fetchRecommendations o = apiFetch o
        ∧ fetchOptimization o = apiFetch o
        ∧ predictDemand o = apiFetch o) := by
  refine ⟨?_, ?_, ?_, ?_, ?_, ?_⟩
  · intro α o e he
    simp [apiFetch, he]
  · intro α j
    rfl
  · intro α
    rfl
  · intro α body
    cases body <;> rfl
  · intro α
    rfl
  · intro α o
    exact ⟨rfl, rfl, rfl⟩

/-- Witness for C10: a concrete network-failure outcome whose try block
error is caught and mapped to null. -/
theorem apiFetch_never_rejects_witness :
    apiFetch (α := Nat) .networkError = none :=
  apiFetch_never_rejects.1 Nat .networkError .networkFailure rfl

end PricePilot
